import Mathlib

/-!
Shallow embedding of clifga's core: the command-expression lexer and parser
(src/app/syntax.py), the GbxRemote dispatch engine
(src/app/trackmania/gbxremote.py), and the game-state tracker
(src/app/trackmania/state.py).  Machine integers are modelled as Nat with
explicit wrap points; Python exceptions as Except; Python dicts as ordered
association lists (Python dicts preserve insertion order).
-/

/-- Python values produced by the expression parser and exchanged with the
dispatch engine.  A float keeps its literal digit string with the sign held
separately, mirroring NumberToken.Parse applying float(num) and then negating;
a tuple delivered whole by _handle_result is modelled as arr. -/
inductive PyVal where
  | int (n : Int)
  | float (neg : Bool) (digits : String)
  | str (s : String)
  | bool (b : Bool)
  | arr (elems : List PyVal)
  | fault (code : Int) (msg : String)

/-- syntax.py TokenType. -/
inductive TokType where
  | unknown
  | number
  | string
  | identifier
  | arrayStart
  | arrayEnd
  | arraySep
  | boolean
  | whitespace
deriving DecidableEq

/-- All raise sites of the lexer and parser, tagged with the character index
they report where the message carries one. -/
inductive SynErr where
  | indexError                       -- IndexError from peekForward(2)[1] on a lone dash
  | unknownToken (pos : Int)         -- Unknown token at pos %d
  | invalidFloat (pos : Int)         -- Invalid float number at pos %d
  | unterminatedString (pos : Int)   -- No end of string detected at pos %d
  | invalidBoolean (pos : Int)       -- Invalid boolean token at %d
  | emptyExpression                  -- Empty expression provided
  | firstTokenNotIdentifier          -- First token must be an identifier
  | expectedArrayStartNothingLeft    -- Expected start of array, but nothing left to parse
  | startOfArrayExpected             -- Start of array expected
  | arraySeparatorExpected           -- Array separator expected
  | anotherArrayElementExpected      -- Another array element expected
  | endOfArrayExpected               -- End of array expected
  | unexpectedArraySeparator         -- Unexpected array separator
  | unexpectedEndOfArray             -- Unexpected end of array
  | outOfFuel                        -- artefact of the fuelled loops, never hit on real runs

/-- A lexed token: the Token subclasses of syntax.py with their value and
character position (positions are Int because StringToken can compute a
negative one). -/
inductive Tok where
  | ws (value : Char) (pos : Int)
  | ident (value : String) (pos : Int)
  | num (value : PyVal) (pos : Int)
  | str (value : String) (pos : Int)
  | bool (value : Bool) (pos : Int)
  | arrayStart (pos : Int)
  | arrayEnd (pos : Int)
  | arraySep (pos : Int)

/-- WhitespaceToken.IsWhitespace: any character compared at or below a space. -/
def isWhitespaceChar (c : Char) : Bool := decide (c ≤ ' ')

/-- NumberToken.IsDigit. -/
def isDigitChar (c : Char) : Bool := decide ('0' ≤ c ∧ c ≤ '9')

/-- IdentifierToken.IsValidChar: a-z, A-Z or a dot. -/
def isIdentChar (c : Char) : Bool :=
  decide (('a' ≤ c ∧ c ≤ 'z') ∨ ('A' ≤ c ∧ c ≤ 'Z') ∨ c = '.')

/-- ASCII fragment of str.lower, the only part BooleanToken.Parse can reach
since TokenIdentifier.IsBoolean gates it on an exact lowercase match. -/
def pyLower (c : Char) : Char :=
  if 'A' ≤ c ∧ c ≤ 'Z' then Char.ofNat (c.toNat + 32) else c

/-- TokenIdentifier.IsWhiteSpace over the remaining input. -/
def isWhiteSpaceDet : List Char → Bool
  | [] => false
  | c :: _ => isWhitespaceChar c

/-- TokenIdentifier.IsNumber.  On a lone dash at end of input,
peekForward(2)[1] indexes past the end of a one-character slice and raises
IndexError; Tokenizer.hasNext ignores its argument so it does not guard this. -/
def isNumberDet : List Char → Except SynErr Bool
  | [] => .ok false
  | '-' :: rest =>
    match rest with
    | [] => .error .indexError
    | c :: _ => .ok (isDigitChar c)
  | c :: _ => .ok (isDigitChar c)

/-- TokenIdentifier.IsString. -/
def isStringDet : List Char → Bool
  | [] => false
  | c :: _ => decide (c = '"')

/-- TokenIdentifier.IsArrayStart. -/
def isArrayStartDet : List Char → Bool
  | [] => false
  | c :: _ => decide (c = '[')

/-- TokenIdentifier.IsArrayEnd. -/
def isArrayEndDet : List Char → Bool
  | [] => false
  | c :: _ => decide (c = ']')

/-- TokenIdentifier.IsArraySeparator. -/
def isArraySepDet : List Char → Bool
  | [] => false
  | c :: _ => decide (c = ',')

/-- TokenIdentifier.IsBoolean: hasNext (whose argument is ignored) plus an
exact slice comparison; nothing inspects what follows the matched word. -/
def isBooleanDet (rest : List Char) : Bool :=
  (decide (rest ≠ []) && decide (rest.take 4 = ['t', 'r', 'u', 'e'])) ||
    (decide (rest ≠ []) && decide (rest.take 5 = ['f', 'a', 'l', 's', 'e']))

/-- TokenIdentifier.IsIdentifier. -/
def isIdentifierDet : List Char → Bool
  | [] => false
  | c :: _ => isIdentChar c

/-- TokenIdentifier.Identify: the detectors consulted in source order, with
the advance each one carries; the first match wins. -/
def identify (rest : List Char) : Except SynErr (TokType × Nat) :=
  if isWhiteSpaceDet rest then .ok (.whitespace, 0)
  else
    match isNumberDet rest with
    | .error e => .error e
    | .ok isnum =>
      if isnum then .ok (.number, 0)
      else if isStringDet rest then .ok (.string, 1)
      else if isArrayStartDet rest then .ok (.arrayStart, 1)
      else if isArrayEndDet rest then .ok (.arrayEnd, 1)
      else if isArraySepDet rest then .ok (.arraySep, 1)
      else if isBooleanDet rest then .ok (.boolean, 0)
      else if isIdentifierDet rest then .ok (.identifier, 0)
      else .ok (.unknown, 1)

/-- The while loop of IdentifierToken.Parse: the longest IsValidChar run. -/
def identTake : List Char → List Char
  | [] => []
  | c :: cs => if isIdentChar c then c :: identTake cs else []

/-- IdentifierToken.Parse on the remaining input at absolute index i; the
stored position is position() minus the identifier length, which is i. -/
def parseIdentTok (rest : List Char) (i : Nat) : Tok × List Char × Nat :=
  let v := identTake rest
  (Tok.ident (String.mk v) (i : Int), rest.drop v.length, i + v.length)

/-- WhitespaceToken.Parse: consume one character; position() - 1 = i. -/
def parseWsTok (rest : List Char) (i : Nat) : Tok × List Char × Nat :=
  (Tok.ws (rest.headD ' ') (i : Int), rest.tail, i + 1)

/-- The digit loop of NumberToken.Parse; i tracks tokenizer.i for the error a
second dot raises.  Returns the consumed characters and the float flag. -/
def numLoop : List Char → Bool → Nat → Except SynErr (List Char × Bool)
  | [], isFloat, _ => .ok ([], isFloat)
  | c :: cs, isFloat, i =>
    if c ≠ '.' ∧ ¬ (isDigitChar c = true) then .ok ([], isFloat)
    else if c = '.' then
      if isFloat then .error (.invalidFloat i)
      else
        match numLoop cs true (i + 1) with
        | .error e => .error e
        | .ok (t, fl) => .ok (c :: t, fl)
    else
      match numLoop cs isFloat (i + 1) with
      | .error e => .error e
      | .ok (t, fl) => .ok (c :: t, fl)

/-- int(num) on the lexed digit run (sign applied by the caller). -/
def digitsToNat (ds : List Char) : Nat :=
  ds.foldl (fun a c => a * 10 + (c.toNat - 48)) 0

/-- NumberToken.Parse: optional leading dash, digit loop, int or float value;
the stored position is position() - len(num), i.e. the first digit. -/
def parseNumTok (rest : List Char) (i : Nat) : Except SynErr (Tok × List Char × Nat) :=
  let neg : Bool := decide (rest.headD ' ' = '-')
  let rest1 := if neg then rest.tail else rest
  let i1 := if neg then i + 1 else i
  match numLoop rest1 false i1 with
  | .error e => .error e
  | .ok (num, isFloat) =>
    let value :=
      if isFloat then PyVal.float neg (String.mk num)
      else PyVal.int (if neg then -(digitsToNat num : Int) else (digitsToNat num : Int))
    .ok (Tok.num value (i1 : Int), rest1.drop num.length, i1 + num.length)

/-- The while loop of StringToken.Parse: consume up to an unescaped quote
(the escape test inspects the last accumulated character); returns the
contents and the input remaining after the loop. -/
def strLoop : List Char → List Char → List Char × List Char
  | [], acc => (acc, [])
  | c :: cs, acc =>
    if c = '"' ∧ (acc = [] ∨ acc.getLast? ≠ some '\\') then (acc, cs)
    else strLoop cs (acc ++ [c])

/-- Tokenizer.last: the final character of the whole line (the tokenizer only
reaches it on nonempty input, so the default is never consulted there). -/
def lastChar (line : List Char) : Char := line.getLastD ' '

/-- StringToken.Parse, entered after Identify's advance consumed the opening
quote.  The unterminated check compares the last character of the whole line
with a quote; the stored position is position() - len(s) - 2. -/
def parseStrTok (line : List Char) (rest : List Char) (i : Nat) :
    Except SynErr (Tok × List Char × Nat) :=
  let (s, remaining) := strLoop rest []
  let consumed := rest.length - remaining.length
  let i2 := i + consumed
  if remaining = [] ∧ ¬ (lastChar line = '"') then .error (.unterminatedString (i2 : Int))
  else .ok (Tok.str (String.mk s) ((i2 : Int) - (s.length : Int) - 2), remaining, i2)

/-- BooleanToken.Parse: the 4- or 5-character slice lowercased and compared;
positions are position() - 4 and position() - 5, i.e. i. -/
def parseBoolTok (rest : List Char) (i : Nat) : Except SynErr (Tok × List Char × Nat) :=
  if rest ≠ [] ∧ (rest.take 4).map pyLower = ['t', 'r', 'u', 'e'] then
    .ok (Tok.bool true (i : Int), rest.drop 4, i + 4)
  else if rest ≠ [] ∧ (rest.take 5).map pyLower = ['f', 'a', 'l', 's', 'e'] then
    .ok (Tok.bool false (i : Int), rest.drop 5, i + 5)
  else .error (.invalidBoolean (i : Int))

/-- The while loop of Tokenizer.tokenize.  Every iteration consumes at least
one character, so fuel of length + 1 never runs out; structural tokens carry
position() - advance. -/
def tokenizeLoop (line : List Char) : Nat → List Char → Nat → Except SynErr (List Tok)
  | 0, _, _ => .error .outOfFuel
  | _ + 1, [], _ => .ok []
  | fuel + 1, c :: cs, i =>
    match identify (c :: cs) with
    | .error e => .error e
    | .ok (ty, adv) =>
      let rest1 := (c :: cs).drop adv
      let i1 := i + adv
      if ty = TokType.unknown then .error (.unknownToken ((i1 : Int) - (adv : Int)))
      else
        match
          (match ty with
            | TokType.identifier => Except.ok (parseIdentTok rest1 i1)
            | TokType.number => parseNumTok rest1 i1
            | TokType.string => parseStrTok line rest1 i1
            | TokType.boolean => parseBoolTok rest1 i1
            | TokType.whitespace => Except.ok (parseWsTok rest1 i1)
            | TokType.arrayStart => Except.ok (Tok.arrayStart ((i1 : Int) - (adv : Int)), rest1, i1)
            | TokType.arrayEnd => Except.ok (Tok.arrayEnd ((i1 : Int) - (adv : Int)), rest1, i1)
            | TokType.arraySep => Except.ok (Tok.arraySep ((i1 : Int) - (adv : Int)), rest1, i1)
            | TokType.unknown => Except.error (.unknownToken ((i1 : Int) - (adv : Int)))) with
        | .error e => .error e
        | .ok (tok, rest2, i2) =>
          match tokenizeLoop line fuel rest2 i2 with
          | .error e => .error e
          | .ok toks => .ok (tok :: toks)

/-- Tokenizer.tokenize on a whole line. -/
def tokenize (s : String) : Except SynErr (List Tok) :=
  tokenizeLoop s.toList (s.toList.length + 1) s.toList 0

/-- The token's type tag as Parser.parse and Parser._array branch on it. -/
def tokType : Tok → TokType
  | .ws _ _ => .whitespace
  | .ident _ _ => .identifier
  | .num _ _ => .number
  | .str _ _ => .string
  | .bool _ _ => .boolean
  | .arrayStart _ => .arrayStart
  | .arrayEnd _ => .arrayEnd
  | .arraySep _ => .arraySep

/-- The token's value attribute as the parser reads it (structural tokens are
the base Token class and carry no value; the parser never reads one, the
placeholder strings stand for that dead access). -/
def tokValue : Tok → PyVal
  | .ws c _ => .str (String.mk [c])
  | .ident v _ => .str v
  | .num v _ => v
  | .str s _ => .str s
  | .bool b _ => .bool b
  | .arrayStart _ => .str "["
  | .arrayEnd _ => .str "]"
  | .arraySep _ => .str ","

/-- Parser.hasNext: the n argument is accepted and ignored, the test is
always i < len(tokens). -/
def parserHasNext (toks : List Tok) (i : Nat) (_n : Nat) : Bool :=
  decide (i < toks.length)

mutual

/-- Parser._array.  Consumes the opening bracket, runs the element loop, then
requires an ArrayEnd; returns the elements and the index just past it. -/
def parseArrayGo : Nat → List Tok → Nat → Except SynErr (List PyVal × Nat)
  | 0, _, _ => .error .outOfFuel
  | fuel + 1, toks, i =>
    if ¬ parserHasNext toks i 1 then .error .expectedArrayStartNothingLeft
    else
      match toks[i]? with
      | none => .error .expectedArrayStartNothingLeft
      | some t =>
        if ¬ (tokType t = TokType.arrayStart) then .error .startOfArrayExpected
        else
          match arrayLoopGo fuel toks (i + 1) 0 [] with
          | .error e => .error e
          | .ok (elems, j) =>
            if ¬ parserHasNext toks j 1 then .error .endOfArrayExpected
            else
              match toks[j]? with
              | none => .error .endOfArrayExpected
              | some t2 =>
                if tokType t2 = TokType.arrayEnd then .ok (elems, j + 1)
                else .error .endOfArrayExpected

/-- The element loop inside Parser._array; nelements counts elements and
separators together, whitespace is skipped, the separator branch consults
hasNext(2) whose argument hasNext ignores. -/
def arrayLoopGo : Nat → List Tok → Nat → Nat → List PyVal → Except SynErr (List PyVal × Nat)
  | 0, _, _, _, _ => .error .outOfFuel
  | fuel + 1, toks, i, nelements, acc =>
    if ¬ parserHasNext toks i 1 then .ok (acc, i)
    else
      match toks[i]? with
      | none => .ok (acc, i)
      | some t =>
        if tokType t = TokType.whitespace then arrayLoopGo fuel toks (i + 1) nelements acc
        else if nelements % 2 = 1 ∧ ¬ (tokType t = TokType.arraySep) ∧
            ¬ (tokType t = TokType.arrayEnd) then
          .error .arraySeparatorExpected
        else if tokType t = TokType.arraySep then
          if ¬ parserHasNext toks i 2 then .error .anotherArrayElementExpected
          else arrayLoopGo fuel toks (i + 1) (nelements + 1) acc
        else if tokType t = TokType.arrayEnd then .ok (acc, i)
        else if tokType t = TokType.arrayStart then
          match parseArrayGo fuel toks i with
          | .error e => .error e
          | .ok (sub, i2) => arrayLoopGo fuel toks i2 (nelements + 1) (acc ++ [PyVal.arr sub])
        else
          arrayLoopGo fuel toks (i + 1) (nelements + 1) (acc ++ [tokValue t])

end

/-- The argument loop of Parser.parse after the method name: whitespace is
skipped, a top-level separator or stray close bracket is an error, arrays
recurse into Parser._array, other tokens contribute their value.  (The
Unknown-token branch of the source is unreachable: the tokenizer raises
instead of emitting an Unknown token.) -/
def argsLoopGo : Nat → List Tok → Nat → List PyVal → Except SynErr (List PyVal)
  | 0, _, _, _ => .error .outOfFuel
  | fuel + 1, toks, i, acc =>
    if ¬ parserHasNext toks i 1 then .ok acc
    else
      match toks[i]? with
      | none => .ok acc
      | some t =>
        if tokType t = TokType.whitespace then argsLoopGo fuel toks (i + 1) acc
        else if tokType t = TokType.arraySep then .error .unexpectedArraySeparator
        else if tokType t = TokType.arrayEnd then .error .unexpectedEndOfArray
        else if tokType t = TokType.arrayStart then
          match parseArrayGo (fuel + 1) toks i with
          | .error e => .error e
          | .ok (sub, i2) => argsLoopGo fuel toks i2 (acc ++ [PyVal.arr sub])
        else
          argsLoopGo fuel toks (i + 1) (acc ++ [tokValue t])

/-- The method-name extraction at the head of Parser.parse: an empty token
list is the empty-expression error, and the very first token (whitespace
included) must be an Identifier. -/
def firstTokenCommand : List Tok → Except SynErr String
  | [] => .error .emptyExpression
  | t :: _ =>
    match t with
    | .ident v _ => .ok v
    | _ => .error .firstTokenNotIdentifier

/-- Parser.parse after tokenization: method name, then the argument loop from
token index 1.  The fuel is generous; each loop step consumes a token or
enters an array whose bracket it consumes. -/
def parseTokens (toks : List Tok) : Except SynErr (String × List PyVal) :=
  match firstTokenCommand toks with
  | .error e => .error e
  | .ok cmd =>
    match argsLoopGo (4 * toks.length + 4) toks 1 [] with
    | .error e => .error e
    | .ok args => .ok (cmd, args)

/-- Parser.parse: tokenize the raw command, then extract (method, args). -/
def parse (s : String) : Except SynErr (String × List PyVal) :=
  match tokenize s with
  | .error e => .error e
  | .ok toks => parseTokens toks

/-- Just the method-name extraction of Parser.parse (its behaviour up to the
point where the method name is known). -/
def parseCommandName (s : String) : Except SynErr String :=
  match tokenize s with
  | .error e => .error e
  | .ok toks => firstTokenCommand toks

/-- An entry of DedicatedRemote.handlers: the one-shot threading.Event and
the result slot (initially None). -/
structure HandlerEntry where
  eventSet : Bool
  result : Option PyVal

/-- One registered callback, the dict registerCallback appends: the delivery
mode flag and the callable (identified by an opaque id). -/
structure CbEntry where
  isAsync : Bool
  fn : Nat

/-- The DedicatedRemote fields the claims touch: the handle table, the handle
counter, the alive flag and the callback registry. -/
structure RemoteState where
  handlers : List (Nat × HandlerEntry)
  currHandler : Nat
  connalive : Bool
  callbacks : List (String × List CbEntry)

/-- Python dict assignment d[k] = v on the handle table: update in place if
the key exists, else append (insertion order preserved). -/
def setEntry : List (Nat × HandlerEntry) → Nat → HandlerEntry → List (Nat × HandlerEntry)
  | [], k, e => [(k, e)]
  | (k1, e1) :: t, k, e => if k1 = k then (k1, e) :: t else (k1, e1) :: setEntry t k e

/-- Python dict membership / indexing on the handle table. -/
def lookupEntry : List (Nat × HandlerEntry) → Nat → Option HandlerEntry
  | [], _ => none
  | (k1, e1) :: t, k => if k1 = k then some e1 else lookupEntry t k

/-- DedicatedRemote._next_handler: return the current counter, then wrap
0xFFFFFFFF to 0x80000000 or increment. -/
def nextHandlerFn (cur : Nat) : Nat × Nat :=
  (cur, if cur = 0xffffffff then 0x80000000 else cur + 1)

/-- The counter value set in __init__ and in __reset. -/
def initialHandler : Nat := 0x80000000

/-- The handles emitted by n successive _next_handler calls starting from
counter state cur. -/
def allocHandles : Nat → Nat → List Nat
  | _, 0 => []
  | cur, n + 1 => (nextHandlerFn cur).1 :: allocHandles (nextHandlerFn cur).2 n

/-- DedicatedRemote.__reset (socket and thread fields are outside the model;
the callback registry survives a reset, only the handle table is cleared). -/
def resetState (st : RemoteState) : RemoteState :=
  { st with connalive := false, handlers := [], currHandler := 0x80000000 }

/-- DedicatedRemote._notify_result: if the handle is in the table, store the
result and set the event; otherwise do nothing. -/
def notifyResult (st : RemoteState) (handler : Nat) (result : PyVal) : RemoteState :=
  match lookupEntry st.handlers handler with
  | some _ => { st with handlers := setEntry st.handlers handler ⟨true, some result⟩ }
  | none => st

/-- The handler = self._next_handler() step inside call. -/
def allocHandle (st : RemoteState) : Nat × RemoteState :=
  ((nextHandlerFn st.currHandler).1, { st with currHandler := (nextHandlerFn st.currHandler).2 })

/-- The self.handlers[handler] = ... step inside call: fresh event, result None. -/
def installHandler (st : RemoteState) (h : Nat) : RemoteState :=
  { st with handlers := setEntry st.handlers h ⟨false, none⟩ }

/-- A synchronous call (gbxremote.py lines 325-355) whose response r arrives
before resultTimeout: allocate a handle, install its entry, send the frame
(socket outside the model), the receive loop runs _notify_result, the waiter
wakes and returns self.handlers[handler]['result'].  Nothing afterwards
deletes the entry. -/
def callSyncDelivered (st : RemoteState) (r : PyVal) : Option PyVal × RemoteState :=
  let (h, st1) := allocHandle st
  let st2 := installHandler st1 h
  let st3 := notifyResult st2 h r
  ((lookupEntry st3.handlers h).bind HandlerEntry.result, st3)

/-- registerCallback: create the method's list if absent, then append. -/
def addCb : List (String × List CbEntry) → String → CbEntry → List (String × List CbEntry)
  | [], m, cb => [(m, [cb])]
  | (k, l) :: t, m, cb => if k = m then (k, l ++ [cb]) :: t else (k, l) :: addCb t m cb

/-- Python dict lookup on the callback registry, empty when absent (the
dispatch loop guards with `in`, and iterating nothing is the same). -/
def lookupCbs : List (String × List CbEntry) → String → List CbEntry
  | [], _ => []
  | (k, l) :: t, m => if k = m then l else lookupCbs t m

/-- The registry produced by a sequence of registerCallback(method, cb)
calls, in call order, starting from the empty dict of __init__. -/
def buildRegistry (regs : List (String × CbEntry)) : List (String × List CbEntry) :=
  regs.foldl (fun acc r => addCb acc r.1 r.2) []

/-- The callback branch of _handle_result (lines 162-175): subscribers under
the exact method first, each invoked with the decoded argument tuple, then
subscribers under "*", each invoked with the method name prepended; the
result is the invocation sequence (callable id, argument list) in the order
__perform_callback runs or spawns them. -/
def dispatchCallback (cbs : List (String × List CbEntry)) (method : String)
    (data : List PyVal) : List (Nat × List PyVal) :=
  (lookupCbs cbs method).map (fun cb => (cb.fn, data)) ++
    (lookupCbs cbs "*").map (fun cb => (cb.fn, PyVal.str method :: data))

/-- Outcome of xmlrpc.client.loads(packetdata) in _result_loop: a decoded
(params, methodname) pair, a Fault raised, an ExpatError, any other decode
exception, or the connection-reset that breaks the loop. -/
inductive DecodeOutcome where
  | success (data : List PyVal) (method : Option String)
  | faultExc (code : Int) (msg : String)
  | expatError
  | otherError
  | connReset

/-- _handle_result (lines 149-175): with no method name this is a response,
whose single-element parameter tuple is unwrapped before _notify_result (a
tuple of another length is delivered whole, modelled as arr); with a method
name it is a callback and is dispatched. -/
def handleResult (st : RemoteState) (handler : Nat) (method : Option String)
    (data : List PyVal) : RemoteState × List (Nat × List PyVal) :=
  match method with
  | none =>
    let d := if data.length = 1 then data.headD (PyVal.arr []) else PyVal.arr data
    (notifyResult st handler d, [])
  | some m => (st, dispatchCallback st.callbacks m data)

/-- One decoded frame through _result_loop's dispatch (lines 206-229): the
new state, the callback invocations, and whether the loop keeps running.
Fault goes through _handle_fault; ExpatError and any other decode error go
through _handle_error, which notifies the boolean False; only a
connection-reset stops the loop. -/
def handleFrame (st : RemoteState) (handler : Nat) (o : DecodeOutcome) :
    RemoteState × List (Nat × List PyVal) × Bool :=
  match o with
  | .success data method =>
    let (st2, inv) := handleResult st handler method data
    (st2, inv, true)
  | .faultExc c m => (notifyResult st handler (PyVal.fault c m), [], true)
  | .expatError => (notifyResult st handler (PyVal.bool false), [], true)
  | .otherError => (notifyResult st handler (PyVal.bool false), [], true)
  | .connReset => ({ st with connalive := false }, [], false)

/-- struct.unpack little-endian u32 of a 4-byte string. -/
def le32 (bs : List Nat) : Nat :=
  bs.foldr (fun b acc => b + 256 * acc) 0

/-- n.to_bytes(4, 'little'). -/
def encodeLE32 (n : Nat) : List Nat :=
  [n % 256, n / 256 % 256, n / 65536 % 256, n / 16777216 % 256]

/-- DedicatedRemote.__build_packet with the XML body abstracted to its bytes:
len32_le(payload) then handle32_le then payload. -/
def buildPacket (handler : Nat) (payload : List Nat) : List Nat :=
  encodeLE32 payload.length ++ encodeLE32 handler ++ payload

/-- struct.unpack('<IL', headerdata): needs exactly 8 bytes, else struct.error. -/
def unpackIL (bs : List Nat) : Option (Nat × Nat) :=
  if bs.length = 8 then some (le32 (bs.take 4), le32 (bs.drop 4)) else none

/-- The frame read of _result_loop (lines 199-204): one recv(8) for the
header and one recv(size) for the payload, with no accumulation of partial
reads.  recvs lists the bytes each successive recv call returns (a recv may
legally return fewer bytes than requested); the payload recv's result is
handed to the XML decoder as-is. -/
def readFrameOnce (recvs : List (List Nat)) : Except String (Nat × Nat × List Nat) :=
  match recvs with
  | [] => .error "connection closed"
  | header :: rest =>
    match unpackIL header with
    | none => .error "struct.error"
    | some (size, handler) => .ok (size, handler, rest.headD [])

/-- One entry of GameStateTracker.chat. -/
structure ChatEntry where
  login : String
  nickname : Option PyVal
  message : String

/-- The GameStateTracker fields on_player_chat touches: the chat buffer, the
nickname cache it reads, and the configured maximum (default 50). -/
structure GameState where
  chat : List ChatEntry
  playersCache : List (String × PyVal)
  maxChatLines : Nat

/-- Python dict lookup on the nickname cache. -/
def lookupCache : List (String × PyVal) → String → Option PyVal
  | [], _ => none
  | (k, v) :: t, login => if k = login then some v else lookupCache t login

/-- GameStateTracker.getPlayerByLogin: the cached player-info or None. -/
def getPlayerByLogin (st : GameState) (login : String) : Option PyVal :=
  lookupCache st.playersCache login

/-- GameStateTracker.on_player_chat (state.py lines 68-79): append one entry,
then drop the oldest when the buffer exceeds maxChatLines. -/
def on_player_chat (st : GameState) (_playerUid : Int) (login : String)
    (text : String) (_isRegisteredCmd : Bool) : GameState :=
  let nickName := getPlayerByLogin st login
  let chat := st.chat ++ [⟨login, nickName, text⟩]
  let chat := if chat.length > st.maxChatLines then chat.drop 1 else chat
  { st with chat := chat }

/-- A sequence of PlayerChat callbacks (uid, login, text, isRegisteredCmd)
applied in order. -/
def applyChats (st : GameState) (evs : List (Int × String × String × Bool)) : GameState :=
  evs.foldl (fun s e => on_player_chat s e.1 e.2.1 e.2.2.1 e.2.2.2) st

/-! Helper lemmas. -/

/-- Looking up a key just written by dict assignment yields the new entry. -/
theorem lookupEntry_setEntry_self (l : List (Nat × HandlerEntry)) (k : Nat) (e : HandlerEntry) :
    lookupEntry (setEntry l k e) k = some e := by
  induction l with
  | nil => simp [setEntry, lookupEntry]
  | cons p t ih =>
    obtain ⟨k1, e1⟩ := p
    by_cases h : k1 = k <;> simp [setEntry, lookupEntry, h, ih]

/-- Every handle the counter emits from an in-range state is in range. -/
theorem allocHandles_inRange : ∀ (n cur : Nat), 0x80000000 ≤ cur → cur ≤ 0xffffffff →
    ∀ h ∈ allocHandles cur n, 0x80000000 ≤ h ∧ h ≤ 0xffffffff := by
  intro n
  induction n with
  | zero => intro cur _ _ h hm; simp [allocHandles] at hm
  | succ k ih =>
    intro cur h1 h2 h hm
    simp only [allocHandles, nextHandlerFn, List.mem_cons] at hm
    rcases hm with rfl | hm
    · exact ⟨h1, h2⟩
    · by_cases hc : cur = 0xffffffff
      · rw [if_pos hc] at hm
        exact ih 0x80000000 (by omega) (by omega) h hm
      · rw [if_neg hc] at hm
        exact ih (cur + 1) (by omega) (by omega) h hm

/-- Registry lookup after one registerCallback: the method's list gains the
new callback at its end, other methods are untouched. -/
theorem lookupCbs_addCb (cbs : List (String × List CbEntry)) (m k : String) (cb : CbEntry) :
    lookupCbs (addCb cbs m cb) k =
      if m = k then lookupCbs cbs k ++ [cb] else lookupCbs cbs k := by
  induction cbs with
  | nil => by_cases h : m = k <;> simp [addCb, lookupCbs, h]
  | cons p t ih =>
    obtain ⟨k1, l1⟩ := p
    by_cases h1 : k1 = m
    · subst h1
      by_cases h2 : k1 = k <;> simp [addCb, lookupCbs, h2]
    · by_cases h2 : k1 = k
      · subst h2
        have h3 : ¬ m = k1 := fun hh => h1 hh.symm
        simp [addCb, lookupCbs, h1, h3]
      · simp [addCb, lookupCbs, h1, h2, ih]

/-- Registry lookup over a whole registration sequence folded onto an
accumulator: the accumulator's list followed by the matching registrations
in order. -/
theorem lookupCbs_buildFold (regs : List (String × CbEntry)) :
    ∀ (acc : List (String × List CbEntry)) (k : String),
      lookupCbs (regs.foldl (fun a r => addCb a r.1 r.2) acc) k =
        lookupCbs acc k ++ (regs.filter (fun r => decide (r.1 = k))).map (fun r => r.2) := by
  induction regs with
  | nil => intro acc k; simp
  | cons r t ih =>
    intro acc k
    simp only [List.foldl_cons, List.filter_cons]
    rw [ih, lookupCbs_addCb]
    by_cases h : r.1 = k
    · simp [h, List.append_assoc]
    · simp [h]

/-- One PlayerChat callback cannot push the buffer past maxChatLines, and it
leaves maxChatLines itself unchanged. -/
theorem on_player_chat_step (st : GameState) (uid : Int) (login text : String) (cmd : Bool)
    (h : st.chat.length ≤ st.maxChatLines) :
    (on_player_chat st uid login text cmd).chat.length ≤ st.maxChatLines ∧
      (on_player_chat st uid login text cmd).maxChatLines = st.maxChatLines := by
  refine ⟨?_, rfl⟩
  simp only [on_player_chat]
  split
  next hgt =>
    simp only [List.length_drop, List.length_append, List.length_cons, List.length_nil] at *
    omega
  next hle =>
    simp only [not_lt, List.length_append, List.length_cons, List.length_nil] at *
    omega

/-! Claim theorems. -/

/-- C1: the receive loop is claimed to accumulate partial reads and
reassemble a frame split across three recv calls.  The code reads the header
with a single recv(8) and the payload with a single recv(size): on a valid
frame (here the one __build_packet would emit for handle 0x80000001 and a
2-byte payload) arriving as recv results of 3, 5 and 2 bytes, struct.unpack
fails and the frame is never delivered, while the same bytes in an 8-byte
header read succeed. -/
theorem c1_split_frame_lost :
    ([2, 0, 0] ++ [0, 1, 0, 0, 128] ++ [104, 105] : List Nat) =
        buildPacket 0x80000001 [104, 105] ∧
      readFrameOnce [[2, 0, 0], [0, 1, 0, 0, 128], [104, 105]] = .error "struct.error" ∧
      readFrameOnce [[2, 0, 0, 0, 1, 0, 0, 128], [104, 105]] =
        .ok (2, 0x80000001, [104, 105]) :=
  ⟨by decide, rfl, rfl⟩

/-- C6: tokenizing the line consisting of a single double quote is claimed
to raise an unterminated-string error; instead StringToken.Parse compares
the last character of the whole line (the opening quote itself) with a quote
and returns an empty string token at position -1.  A line whose last
character is not a quote does raise the position-tagged error. -/
theorem c6_lone_quote_not_an_error :
    tokenize "\"" = .ok [Tok.str "" (-1)] ∧
      tokenize "\"x" = .error (.unterminatedString 2) :=
  ⟨rfl, rfl⟩

/-- C7: a trailing separator and a separator before the first element are
claimed to be parse errors; because Parser.hasNext ignores its argument the
hasNext(2) guard in _array never fails while the close bracket remains, so
`foo [1,]` parses to ("foo", [[1]]) and `foo [,]` to ("foo", [[]]). -/
theorem c7_trailing_separator_accepted :
    parse "foo [1,]" = .ok ("foo", [PyVal.arr [PyVal.int 1]]) ∧
      parse "foo [,]" = .ok ("foo", [PyVal.arr []]) :=
  ⟨rfl, rfl⟩

/-- C2: the claim that a delivered result removes its CallHandle from the
handle table fails: a Ping returning the integer 7 on a fresh connection
leaves the table holding the handle 0x80000000 with its delivered result and
set event, not empty, because nothing in call or _notify_result deletes it. -/
theorem c2_counterexample :
    callSyncDelivered ⟨[], 0x80000000, true, []⟩ (PyVal.int 7) =
      (some (PyVal.int 7),
        ⟨[(0x80000000, ⟨true, some (PyVal.int 7)⟩)], 0x80000001, true, []⟩) ∧
      (callSyncDelivered ⟨[], 0x80000000, true, []⟩ (PyVal.int 7)).2.handlers ≠ [] :=
  ⟨rfl, List.cons_ne_nil _ _⟩

/-- C2 amended: for every synchronous call with a delivered result the
result is returned, but the CallHandle record stays in the handle table
(with its event set and the result still stored) after the call returns; the
table is only emptied when the connection is torn down through __reset. -/
theorem c2_handle_record_retained (st : RemoteState) (r : PyVal) :
    (callSyncDelivered st r).1 = some r ∧
      lookupEntry (callSyncDelivered st r).2.handlers (allocHandle st).1 =
        some ⟨true, some r⟩ ∧
      (resetState (callSyncDelivered st r).2).handlers = [] := by
  simp [callSyncDelivered, allocHandle, installHandler, notifyResult,
    lookupEntry_setEntry_self, resetState]

/-- C3: from the initial state (the same value __reset restores) every
allocated request handle lies in [0x80000000, 0xFFFFFFFF], and the handle
emitted after 0xFFFFFFFF is 0x80000000. -/
theorem c3_handle_allocator :
    (∀ (n h : Nat), h ∈ allocHandles initialHandler n →
        0x80000000 ≤ h ∧ h ≤ 0xffffffff) ∧
      allocHandles 0xffffffff 2 = [0xffffffff, 0x80000000] ∧
      ∀ st : RemoteState, (resetState st).currHandler = initialHandler :=
  ⟨fun n h hm => allocHandles_inRange n initialHandler (by decide) (by decide) h hm,
   by decide, fun _ => rfl⟩

/-- Witness for C3 at the concrete allocation sequence of length 2. -/
theorem c3_handle_allocator_w : 0x80000000 ≤ 0x80000001 ∧ 0x80000001 ≤ 0xffffffff :=
  c3_handle_allocator.1 2 0x80000001 (by decide)

/-- C4: for a registry built by any sequence of registerCallback calls,
dispatching a callback for method m invokes exactly the subscribers
registered under m first, each with the argument vector, in registration
order, followed by the subscribers registered under the wildcard, each with
the method name prepended, in registration order. -/
theorem c4_callback_dispatch_order (regs : List (String × CbEntry)) (m : String)
    (data : List PyVal) :
    dispatchCallback (buildRegistry regs) m data =
      (regs.filter (fun r => decide (r.1 = m))).map (fun r => (r.2.fn, data)) ++
        (regs.filter (fun r => decide (r.1 = "*"))).map
          (fun r => (r.2.fn, PyVal.str m :: data)) := by
  simp only [dispatchCallback, buildRegistry, lookupCbs_buildFold, lookupCbs,
    List.nil_append, List.map_map]
  rfl

/-- C5: the claim permits leading whitespace before the method name, but on
the line consisting of a space and then foo the first non-whitespace token
is the Identifier foo and Parser.parse still fails, because it inspects the
literal first token (the whitespace token) rather than skipping whitespace. -/
theorem c5_counterexample :
    tokenize " foo" = .ok [Tok.ws ' ' 0, Tok.ident "foo" 1] ∧
      parseCommandName " foo" = .error .firstTokenNotIdentifier :=
  ⟨rfl, rfl⟩

/-- C5 amended: Parser.parse succeeds in extracting the method name exactly
when the very first token of the tokenized line is an Identifier; leading
whitespace is not skipped, so it makes the extraction fail like any other
non-Identifier first token. -/
theorem c5_first_token_must_be_identifier (s : String) (toks : List Tok)
    (h : tokenize s = .ok toks) :
    (∃ m, parseCommandName s = .ok m) ↔ ∃ v p t, toks = Tok.ident v p :: t := by
  have hp : parseCommandName s = firstTokenCommand toks := by
    unfold parseCommandName; rw [h]
  rw [hp]
  cases toks with
  | nil => simp [firstTokenCommand]
  | cons t rest => cases t <;> simp [firstTokenCommand]

/-- Witness for C5 amended on the line Ping. -/
theorem c5_first_token_must_be_identifier_w :
    ∃ m, parseCommandName "Ping" = .ok m :=
  (c5_first_token_must_be_identifier "Ping" [Tok.ident "Ping" 0] rfl).mpr ⟨"Ping", 0, [], rfl⟩

/-- C8: the claim says no Boolean token is produced when true is part of a
longer identifier run, but tokenizing truex produces the Boolean token true
at position 0 followed by the identifier x. -/
theorem c8_counterexample :
    tokenize "truex" = .ok [Tok.bool true 0, Tok.ident "x" 4] := rfl

/-- C8 amended: the lexer selects a Boolean token exactly on the literal
lowercase words; whenever the next characters are t r u e (or f a l s e)
the Boolean detector wins regardless of what follows, including further
identifier characters. -/
theorem c8_boolean_matched_regardless_of_suffix (cs : List Char) :
    identify ('t' :: 'r' :: 'u' :: 'e' :: cs) = .ok (TokType.boolean, 0) ∧
      identify ('f' :: 'a' :: 'l' :: 's' :: 'e' :: cs) = .ok (TokType.boolean, 0) :=
  ⟨rfl, rfl⟩

/-- C9: starting from any chat buffer within bounds, after any sequence of
PlayerChat callbacks the buffer length is still at most maxChatLines (and
maxChatLines itself never changes); each callback appends one entry and
drops the oldest when the bound is exceeded. -/
theorem c9_chat_buffer_bounded (st : GameState) (evs : List (Int × String × String × Bool))
    (h : st.chat.length ≤ st.maxChatLines) :
    (applyChats st evs).chat.length ≤ (applyChats st evs).maxChatLines ∧
      (applyChats st evs).maxChatLines = st.maxChatLines := by
  induction evs generalizing st with
  | nil => exact ⟨h, rfl⟩
  | cons e t ih =>
    have hu : applyChats st (e :: t) =
        applyChats (on_player_chat st e.1 e.2.1 e.2.2.1 e.2.2.2) t := rfl
    rw [hu]
    have step := on_player_chat_step st e.1 e.2.1 e.2.2.1 e.2.2.2 h
    have hmid : (on_player_chat st e.1 e.2.1 e.2.2.1 e.2.2.2).chat.length ≤
        (on_player_chat st e.1 e.2.1 e.2.2.1 e.2.2.2).maxChatLines := by
      rw [step.2]; exact step.1
    have hrec := ih (on_player_chat st e.1 e.2.1 e.2.2.1 e.2.2.2) hmid
    exact ⟨hrec.1, hrec.2.trans step.2⟩

/-- Witness for C9: three lines of chat into a buffer capped at one. -/
theorem c9_chat_buffer_bounded_w :
    (applyChats ⟨[], [], 1⟩ [(0, "a", "hi", false), (0, "b", "yo", false)]).chat.length ≤
        (applyChats ⟨[], [], 1⟩ [(0, "a", "hi", false), (0, "b", "yo", false)]).maxChatLines ∧
      (applyChats ⟨[], [], 1⟩ [(0, "a", "hi", false), (0, "b", "yo", false)]).maxChatLines = 1 :=
  c9_chat_buffer_bounded ⟨[], [], 1⟩ [(0, "a", "hi", false), (0, "b", "yo", false)] (by decide)

/-- C10: when the payload of a response frame addressed to a pending handle
fails XML-RPC decoding (ExpatError or any other exception), the waiting
caller's slot is set to the boolean False with the event set, the resulting
state is identical to that of a genuine boolean-False response (so the two
are indistinguishable), and the receive loop keeps running. -/
theorem c10_decode_failure_false (st : RemoteState) (h : Nat)
    (hp : (lookupEntry st.handlers h).isSome = true) :
    handleFrame st h .expatError = (notifyResult st h (PyVal.bool false), [], true) ∧
      handleFrame st h .otherError = handleFrame st h .expatError ∧
      handleFrame st h (.success [PyVal.bool false] none) = handleFrame st h .expatError ∧
      lookupEntry (handleFrame st h .expatError).1.handlers h =
        some ⟨true, some (PyVal.bool false)⟩ := by
  refine ⟨rfl, rfl, rfl, ?_⟩
  obtain ⟨e, he⟩ := Option.isSome_iff_exists.mp hp
  simp [handleFrame, notifyResult, he, lookupEntry_setEntry_self]

/-- Witness for C10 on a one-entry handle table. -/
theorem c10_decode_failure_false_w :
    (lookupEntry ([(5, ⟨false, none⟩)] : List (Nat × HandlerEntry)) 5).isSome = true ∧
      lookupEntry
          (handleFrame ⟨[(5, ⟨false, none⟩)], 0x80000000, true, []⟩ 5 .expatError).1.handlers 5 =
        some ⟨true, some (PyVal.bool false)⟩ :=
  ⟨rfl,
   (c10_decode_failure_false ⟨[(5, ⟨false, none⟩)], 0x80000000, true, []⟩ 5 rfl).2.2.2⟩
